import Mathlib

/-!
Shallow embedding of the chat backend (src/app.py, plus the history
rendering of src/chat_web_token.py) for checking the specification's
claims about identity, presence and moderation.

Modelling conventions:
* SQLite tables become Lean lists of records; `INSERT` appends,
  `INSERT OR REPLACE` on a primary-keyed table replaces the keyed row,
  `UPDATE ... WHERE token=?` maps over the rows.
* The in-memory Python dicts (`sid_to_name`, `sid_to_token`,
  `sid_to_room`) become association lists with first-match lookup;
  `d[k] = v` inserts at the front after dropping the key, `d.pop(k)`
  drops the key.
* Python string truthiness (`if s:` fails on `None` and `""`) is made
  explicit with `truthyStr` / `pyOrD`.
* Timestamps are `Nat` seconds.  `ORDER BY ts DESC LIMIT n` on the
  message table is modelled as "last n rows in insertion order"; the
  timestamps come from `time.time()`, which is nondecreasing in
  insertion order, and ties are broken by rowid (insertion) order.
* SocketIO room membership (`join_room`/`leave_room`) is tracked
  separately from `sid_to_room` as a list of (sid, room) pairs, and the
  set of connected sockets as a list of sids, because fan-out
  (`emit(..., room=r)` / `broadcast=True`) targets those transport-level
  sets, not the dicts.
* `socketio.disconnect(sid)` triggers the `disconnect` handler, so a
  forced disconnect both removes the transport membership and pops the
  three dicts (`full_disconnect`).
-/

namespace ChatApp

/-- One row of the `messages` table of src/app.py (`token` and
`room_code` are nullable columns). -/
structure Msg where
  sender_ip : String
  ts : Nat
  content : String
  token : Option String
  room_code : Option String
  deriving DecidableEq, Repr

/-- One row of the `tokens` table: secret token, display name, public
token, creation time. -/
structure TokenRec where
  token : String
  name : String
  public_token : String
  created_ts : Nat
  deriving DecidableEq, Repr

/-- One row of the `rooms` table. -/
structure Room where
  code : String
  name : String
  host_token : String
  created_ts : Nat
  deriving DecidableEq, Repr

/-- The durable store (the four SQLite tables of src/app.py). -/
structure DB where
  tokens : List TokenRec
  messages : List Msg
  rooms : List Room
  banned : List String
  deriving DecidableEq, Repr

/-- Association-list lookup, first match wins (dict lookup). -/
def alookup {α : Type} (k : String) : List (String × α) → Option α
  | [] => none
  | (k2, v) :: rest => if k2 = k then some v else alookup k rest

/-- Dict assignment `d[k] = v`: the key is bound to `v`, other keys keep
their values. -/
def aset {α : Type} (k : String) (v : α) (m : List (String × α)) : List (String × α) :=
  (k, v) :: m.filter (fun p => p.1 ≠ k)

/-- Dict removal `d.pop(k, None)`. -/
def aerase {α : Type} (k : String) (m : List (String × α)) : List (String × α) :=
  m.filter (fun p => p.1 ≠ k)

/-- Python truthiness on an optional string: `None` and `""` are falsy. -/
def truthyStr : Option String → Option String
  | none => none
  | some s => if s = "" then none else some s

/-- Python `x or d` for an optional string `x` and default `d`. -/
def pyOrD : Option String → String → String
  | none, d => d
  | some s, d => if s = "" then d else s

/-- Python `s.strip()`: drop leading and trailing whitespace
(structurally recursive, so proofs can evaluate it). -/
def pyStrip (s : String) : String :=
  String.mk (((s.data.dropWhile Char.isWhitespace).reverse.dropWhile Char.isWhitespace).reverse)

/-- Python `s.split(",")` on the character list (structural recursion). -/
def splitCommaAux : List Char → List (List Char)
  | [] => [[]]
  | c :: rest =>
    match splitCommaAux rest with
    | cur :: rs => if c = ',' then [] :: cur :: rs else (c :: cur) :: rs
    | [] => [[c]]

/-- Python `s.split(",")`. -/
def pySplitComma (s : String) : List String := (splitCommaAux s.data).map String.mk

/-- The in-memory live state: the three dicts of src/app.py plus the
transport-level connection and room-membership sets. -/
structure Live where
  sid_to_name : List (String × String)
  sid_to_token : List (String × String)
  sid_to_room : List (String × Option String)
  connected : List String
  sio_rooms : List (String × String)
  deriving DecidableEq, Repr

/-- Whole-program state: durable store plus live state. -/
structure AppState where
  db : DB
  live : Live
  deriving DecidableEq, Repr

/-- The parts of a request the handlers read: the two proxy headers, the
transport remote address, and the SocketIO session id. -/
structure Req where
  xff : Option String
  xrealip : Option String
  remote_addr : String
  sid : String
  deriving DecidableEq, Repr

/-- The `register` event payload `{name, token?, room?, room_code?}`. -/
structure RegData where
  name : Option String
  token : Option String
  room : Option String
  room_code : Option String
  deriving DecidableEq, Repr

/-- The `welcome` event payload. -/
structure Welcome where
  name : String
  token : String
  public_token : Option String
  banned : Bool
  deriving DecidableEq, Repr

/-- `tokens` row for a secret token (`SELECT ... FROM tokens WHERE token=?`). -/
def findTok (t : String) (db : DB) : Option TokenRec :=
  db.tokens.find? (fun r => r.token = t)

/-- `ensure_token_record` (src/app.py:115): update the name if the token
row exists, otherwise insert a fresh row with a newly minted public
token `fresh_pub` and creation time `now`. -/
def ensure_token_record (fresh_pub : String) (now : Nat) (token name : String) (db : DB) : DB :=
  if (findTok token db).isSome then
    { db with tokens := db.tokens.map (fun r => if r.token = token then { r with name := name } else r) }
  else
    { db with tokens := db.tokens ++ [⟨token, name, fresh_pub, now⟩] }

/-- `get_name_by_token` (src/app.py:128): `None`/`""` tokens short-circuit
to `None` (`if not token`). -/
def get_name_by_token (tok : Option String) (db : DB) : Option String :=
  match tok with
  | none => none
  | some t => if t = "" then none else (findTok t db).map (fun r => r.name)

/-- `get_public_by_token` (src/app.py:135). -/
def get_public_by_token (tok : Option String) (db : DB) : Option String :=
  match tok with
  | none => none
  | some t => if t = "" then none else (findTok t db).map (fun r => r.public_token)

/-- `store_message` (src/app.py:143): durable append. -/
def store_message (sender_ip content : String) (token room_code : Option String)
    (now : Nat) (db : DB) : DB :=
  { db with messages := db.messages ++ [⟨sender_ip, now, content, token, room_code⟩] }

/-- The rows `recent_messages` draws from: with a truthy room code the
`WHERE room_code=?` filter, otherwise the whole table (src/app.py:150). -/
def scope_messages (room_code : Option String) (db : DB) : List Msg :=
  match room_code with
  | some r => if r = "" then db.messages else db.messages.filter (fun m => m.room_code = some r)
  | none => db.messages

/-- `recent_messages` (src/app.py:150): `ORDER BY ts DESC LIMIT ?` then a
Python `reverse()` — the last `limit` rows of the scope in insertion
order (timestamps are nondecreasing in insertion order, ties broken by
rowid). -/
def recent_messages (limit : Nat) (room_code : Option String) (db : DB) : List Msg :=
  (((scope_messages room_code db).reverse).take limit).reverse

/-- `create_room` (src/app.py:168): `INSERT OR REPLACE`, with `name or code`. -/
def create_room (code name host_token : String) (now : Nat) (db : DB) : DB :=
  { db with rooms := ⟨code, if name = "" then code else name, host_token, now⟩ ::
      db.rooms.filter (fun r => r.code ≠ code) }

/-- `room_exists` (src/app.py:180). -/
def room_exists (code : String) (db : DB) : Bool :=
  db.rooms.any (fun r => r.code = code)

/-- `ban_token` (src/app.py:186): `INSERT OR REPLACE INTO banned`. -/
def ban_token (token : String) (db : DB) : DB :=
  { db with banned := token :: db.banned.filter (fun t => t ≠ token) }

/-- `unban_token` (src/app.py:190). -/
def unban_token (token : String) (db : DB) : DB :=
  { db with banned := db.banned.filter (fun t => t ≠ token) }

/-- `is_banned` (src/app.py:194). -/
def is_banned (token : String) (db : DB) : Bool :=
  db.banned.contains token

/-- `name.lower().startswith("anon")` — the placeholder-name pattern. -/
def isAnonName (s : String) : Bool :=
  "anon".data.isPrefixOf (s.data.map Char.toLower)

/-- The joined rows scanned by `last_non_anon_name_for_ip`
(src/app.py:212): current names of the senders of the 50 most recent
messages from `ip` that carry a token with a `tokens` row (the SQL inner
join drops NULL/unknown tokens before the `LIMIT 50`), most recent
first. -/
def reassoc_window (ip : String) (db : DB) : List String :=
  ((db.messages.filterMap (fun m =>
      if m.sender_ip = ip then
        m.token.bind (fun t => (findTok t db).map (fun r => r.name))
      else none)).reverse).take 50

/-- `last_non_anon_name_for_ip` (src/app.py:212): first name in the
window that is nonempty and not placeholder-patterned. -/
def last_non_anon_name_for_ip (ip : String) (db : DB) : Option String :=
  (reassoc_window ip db).find? (fun nm => !(nm == "") && !(isAnonName nm))

/-- `get_client_ip` (src/app.py:231): first comma-separated entry of
`X-Forwarded-For` (falling back to `X-Real-IP`), else the transport
remote address. -/
def get_client_ip (r : Req) : String :=
  match (truthyStr r.xff).orElse (fun _ => truthyStr r.xrealip) with
  | some s => pyStrip ((pySplitComma s).headD "")
  | none => r.remote_addr

/-- A single-quote character, for the rendered HTML. -/
def sq : String := String.singleton (Char.ofNat 39)

/-- Two-digit zero-padded decimal. -/
def pad2 (n : Nat) : String :=
  if n < 10 then "0" ++ toString n else toString n

/-- `strftime("%H:%M")` on a Nat-second timestamp (UTC). -/
def fmtHM (ts : Nat) : String :=
  pad2 ((ts / 3600) % 24) ++ ":" ++ pad2 ((ts % 3600) / 60)

/-- The rendered chat line
`<span class='user' data-pub='PUB'>NAME</span> - WHEN - TXT`
(src/app.py:319 and 339). -/
def renderLine (pub name when txt : String) : String :=
  "<span class=" ++ sq ++ "user" ++ sq ++ " data-pub=" ++ sq ++ pub ++ sq ++ ">" ++
    name ++ "</span> - " ++ when ++ " - " ++ txt

/-- The history lines sent on register (src/app.py:314): names and
public ids are resolved live from the current `tokens` table, with
`or "anon"` / `or "?"` fallbacks. -/
def render_history (db : DB) (ms : List Msg) : List String :=
  ms.map (fun m =>
    renderLine (pyOrD (get_public_by_token m.token db) "?")
      (pyOrD (get_name_by_token m.token db) "anon") (fmtHM m.ts) m.content)

/-- `join_room` at the transport level: membership is a set of
(sid, room) pairs. -/
def sioJoin (sid room : String) (l : List (String × String)) : List (String × String) :=
  if (sid, room) ∈ l then l else (sid, room) :: l

/-- Step 1 of `register` (src/app.py:274): a truthy provided token with a
truthy stored name is confirmed; otherwise a fresh token `ft` is minted
and recorded under the requested name (or `"anon"`), with fresh public
token `fp`.  Returns (name, token, db). -/
def resolve_identity (ft fp : String) (now : Nat) (req_name : String)
    (provided : Option String) (db : DB) : String × String × DB :=
  match truthyStr provided with
  | some pt =>
    match get_name_by_token (some pt) db with
    | some sn =>
      if sn = "" then
        let name := if req_name = "" then "anon" else req_name
        (name, ft, ensure_token_record fp now ft name db)
      else (sn, pt, db)
    | none =>
      let name := if req_name = "" then "anon" else req_name
      (name, ft, ensure_token_record fp now ft name db)
  | none =>
    let name := if req_name = "" then "anon" else req_name
    (name, ft, ensure_token_record fp now ft name db)

/-- Step 2 of `register` (src/app.py:289): if the resolved name is empty
or placeholder-patterned, adopt the last non-anon name seen from this
origin (persisting it); otherwise keep the name. -/
def reassociate (ip fp : String) (now : Nat) (token name : String) (db : DB) :
    String × DB :=
  if name = "" ∨ isAnonName name then
    match last_non_anon_name_for_ip ip db with
    | some prev =>
      if prev = "" then (name, db)
      else (prev, ensure_token_record fp now token prev db)
    | none => (name, db)
  else (name, db)

/-- The live-map updates of `register` (src/app.py:299): all three dicts
are written for `sid`, then the requested room is joined only if it
already exists in the room table. -/
def register_live_update (sid name token : String) (desired : Option String)
    (db : DB) (l : Live) : Live :=
  let l1 := { l with
    sid_to_name := aset sid name l.sid_to_name,
    sid_to_token := aset sid token l.sid_to_token,
    sid_to_room := aset sid none l.sid_to_room }
  match desired with
  | some r =>
    if room_exists r db then
      { l1 with sid_to_room := aset sid (some r) l1.sid_to_room,
                sio_rooms := sioJoin sid r l1.sio_rooms }
    else l1
  | none => l1

/-- The `register` handler (src/app.py:264): returns the new state, the
`welcome` payload, and the emitted history lines (`none` when banned —
the banned branch returns before any live-map write or history emit). -/
def on_register (ft fp : String) (now : Nat) (req : Req) (d : RegData)
    (st : AppState) : AppState × Welcome × Option (List String) :=
  let req_name := pyStrip (d.name.getD "")
  let desired := (truthyStr d.room).orElse (fun _ => truthyStr d.room_code)
  let ip := get_client_ip req
  let r1 := resolve_identity ft fp now req_name d.token st.db
  let r2 := reassociate ip fp now r1.2.1 r1.1 r1.2.2
  if is_banned r1.2.1 r2.2 then
    (⟨r2.2, st.live⟩, ⟨r2.1, r1.2.1, get_public_by_token (some r1.2.1) r2.2, true⟩, none)
  else
    let live2 := register_live_update req.sid r2.1 r1.2.1 desired r2.2 st.live
    let myRoom := (alookup req.sid live2.sid_to_room).bind id
    (⟨r2.2, live2⟩, ⟨r2.1, r1.2.1, get_public_by_token (some r1.2.1) r2.2, false⟩,
      some (render_history r2.2 (recent_messages 200 myRoom r2.2)))

/-- The `msg` handler (src/app.py:323): returns the new state, the
rendered line, and the fan-out target sids (`emit(..., room=r)` targets
the transport members of `r`; `broadcast=True` targets every connected
socket). -/
def on_msg (req : Req) (text : String) (room : Option String) (now : Nat)
    (st : AppState) : AppState × String × List String :=
  let token := alookup req.sid st.live.sid_to_token
  let name := (alookup req.sid st.live.sid_to_name).getD "anon"
  let db2 := store_message (get_client_ip req) text token room now st.db
  let line := renderLine (pyOrD (get_public_by_token token db2) "?") name (fmtHM now) text
  let targets :=
    match room with
    | some r =>
      if r = "" then st.live.connected
      else (st.live.sio_rooms.filter (fun p => p.2 = r)).map Prod.fst
    | none => st.live.connected
  (⟨db2, st.live⟩, line, targets)

/-- A transport-level disconnect of `sid` together with the `disconnect`
handler it triggers (src/app.py:346): the three dicts are popped and the
socket leaves the connection set and all transport rooms. -/
def full_disconnect (sid : String) (st : AppState) : AppState :=
  { st with live := {
      sid_to_name := aerase sid st.live.sid_to_name,
      sid_to_token := aerase sid st.live.sid_to_token,
      sid_to_room := aerase sid st.live.sid_to_room,
      connected := st.live.connected.filter (fun s => s ≠ sid),
      sio_rooms := st.live.sio_rooms.filter (fun p => p.1 ≠ sid) } }

/-- `admin_ban` (src/app.py:706): insert into the ban table, then force
a disconnect of every live socket whose secret token is `token`. -/
def admin_ban (token : String) (st : AppState) : AppState :=
  if token = "" then st
  else
    let db2 := ban_token token st.db
    let targets := (st.live.sid_to_token.filter (fun p => p.2 = token)).map Prod.fst
    targets.foldl (fun s sid => full_disconnect sid s) ⟨db2, st.live⟩

/-- `admin_unban` (src/app.py:726). -/
def admin_unban (token : String) (st : AppState) : AppState :=
  if token = "" then st else ⟨unban_token token st.db, st.live⟩

/-- The shared `room = sid_to_room.get(sid); if room: leave_room(room,
sid=sid)` step of `admin_kick` and `admin_move` (src/app.py:748 and
771): leave the current transport room if there is a truthy one. -/
def leave_current_room (sid : String) (l : Live) : Live :=
  match (alookup sid l.sid_to_room).bind id with
  | some c =>
    if c = "" then l
    else { l with sio_rooms := l.sio_rooms.filter (fun p => ¬(p.1 = sid ∧ p.2 = c)) }
  | none => l

/-- `admin_kick` (src/app.py:739): leave the current transport room if
any, then force a disconnect. -/
def admin_kick (sid : String) (st : AppState) : AppState :=
  if sid = "" then st
  else full_disconnect sid ⟨st.db, leave_current_room sid st.live⟩

/-- `admin_move` (src/app.py:761): leave the current transport room,
then either clear the room (empty input) or auto-create and join the
target room — only `sid_to_room` among the three dicts is written. -/
def admin_move (sid roomRaw : String) (now : Nat) (st : AppState) : AppState :=
  if sid = "" then st
  else
    let room := pyStrip roomRaw
    let l1 := leave_current_room sid st.live
    if room = "" then
      ⟨st.db, { l1 with sid_to_room := aset sid none l1.sid_to_room }⟩
    else
      let db2 := if room_exists room st.db then st.db else create_room room room "" now st.db
      ⟨db2, { l1 with sio_rooms := sioJoin sid room l1.sio_rooms,
                      sid_to_room := aset sid (some room) l1.sid_to_room }⟩

/-- The three live dicts key exactly the same connection ids. -/
def sameKeySets (l : Live) : Prop :=
  (∀ k, (alookup k l.sid_to_name).isSome ↔ (alookup k l.sid_to_token).isSome)
  ∧ (∀ k, (alookup k l.sid_to_name).isSome ↔ (alookup k l.sid_to_room).isSome)

end ChatApp

namespace CWT

/-!
Embedding of the history rendering of src/chat_web_token.py.  Its
`messages` rows carry a nullable `token` column: the sibling variants
sharing the `chat_web_token.db` file (src/chat_web_toke.py:43-49)
create the table with that column, and `get_name_by_token_for_ip`
(src/chat_web_token.py:331) selects it.
-/

/-- One row of the `messages` table as queried by src/chat_web_token.py. -/
structure Msg where
  sender_ip : String
  ts : Nat
  content : String
  token : Option String
  deriving DecidableEq, Repr

/-- The durable store of src/chat_web_token.py: messages plus the
(token, name) table. -/
structure DB where
  messages : List Msg
  tokens : List (String × String)
  deriving DecidableEq, Repr

/-- `get_name_by_token` (src/chat_web_token.py:94). -/
def get_name_by_token (t : String) (db : DB) : Option String :=
  (db.tokens.find? (fun p => p.1 = t)).map Prod.snd

/-- `SELECT DISTINCT` keeping first occurrences in scan order. -/
def dedupFirst (l : List String) : List String :=
  l.foldl (fun acc x => if x ∈ acc then acc else acc ++ [x]) []

/-- `get_name_by_token_for_ip` (src/chat_web_token.py:331): first token
ever used from `ip` whose `tokens` row has a truthy name (rows with a
NULL token match no `tokens` row, so dropping them is equivalent). -/
def get_name_by_token_for_ip (ip : String) (db : DB) : Option String :=
  (dedupFirst (db.messages.filterMap (fun m =>
      if m.sender_ip = ip then m.token else none))).findSome?
    (fun t =>
      match get_name_by_token t db with
      | some n => if n = "" then none else some n
      | none => none)

/-- `recent_messages` (src/chat_web_token.py:78): last `limit` rows in
insertion order (`ORDER BY ts DESC LIMIT ?` then `reverse()`). -/
def recent_messages (limit : Nat) (db : DB) : List Msg :=
  ((db.messages.reverse).take limit).reverse

/-- The history lines built in `ws_register` (src/chat_web_token.py:320):
`[NICK] - WHEN - TXT`, where the nickname falls back to the raw
`sender_ip` when no name resolves for the historic origin. -/
def ws_register_history (db : DB) : List String :=
  (recent_messages 30 db).map (fun m =>
    "[" ++ ChatApp.pyOrD (get_name_by_token_for_ip m.sender_ip db) m.sender_ip ++ "] - " ++
      ChatApp.fmtHM m.ts ++ " - " ++ m.content)

end CWT

namespace ChatApp

/-! ### Association-list lemmas -/

theorem alookup_filter_ne {α : Type} (k k2 : String) (m : List (String × α)) (h : k ≠ k2) :
    alookup k (m.filter (fun p => p.1 ≠ k2)) = alookup k m := by
  induction m with
  | nil => rfl
  | cons p rest ih =>
    by_cases hp : p.1 = k2
    · have hpk : ¬p.1 = k := by
        intro hk
        exact h (hk ▸ hp)
      simp only [List.filter_cons]
      rw [if_neg (by simp [hp])]
      rw [ih]
      obtain ⟨k1, v⟩ := p
      simp only [alookup]
      rw [if_neg hpk]
    · simp only [List.filter_cons]
      rw [if_pos (by simp [hp])]
      obtain ⟨k1, v⟩ := p
      simp only [alookup]
      by_cases hk : k1 = k
      · rw [if_pos hk, if_pos hk]
      · rw [if_neg hk, if_neg hk, ih]

theorem alookup_filter_self {α : Type} (k : String) (m : List (String × α)) :
    alookup k (m.filter (fun p => p.1 ≠ k)) = none := by
  induction m with
  | nil => rfl
  | cons p rest ih =>
    by_cases hp : p.1 = k
    · simp only [List.filter_cons]
      rw [if_neg (by simp [hp])]
      exact ih
    · simp only [List.filter_cons]
      rw [if_pos (by simp [hp])]
      obtain ⟨k1, v⟩ := p
      simp only [alookup]
      rw [if_neg hp]
      exact ih

theorem alookup_aset_self {α : Type} (k : String) (v : α) (m : List (String × α)) :
    alookup k (aset k v m) = some v := by
  simp [aset, alookup]

theorem alookup_aset_ne {α : Type} (k k2 : String) (v : α) (m : List (String × α))
    (h : k ≠ k2) : alookup k (aset k2 v m) = alookup k m := by
  have h2 : ¬k2 = k := fun hk => h hk.symm
  simp only [aset, alookup]
  rw [if_neg h2]
  exact alookup_filter_ne k k2 m h

theorem isSome_alookup_aset {α : Type} (k k2 : String) (v : α) (m : List (String × α)) :
    (alookup k (aset k2 v m)).isSome ↔ k = k2 ∨ (alookup k m).isSome := by
  by_cases h : k = k2
  · subst h
    simp [alookup_aset_self]
  · simp [alookup_aset_ne k k2 v m h, h]

theorem alookup_aerase {α : Type} (k k2 : String) (m : List (String × α)) :
    alookup k (aerase k2 m) = if k = k2 then none else alookup k m := by
  by_cases h : k = k2
  · subst h
    rw [if_pos rfl]
    exact alookup_filter_self k m
  · rw [if_neg h]
    exact alookup_filter_ne k k2 m h

theorem alookup_eq_some_mem {α : Type} (k : String) (v : α) (m : List (String × α))
    (h : alookup k m = some v) : (k, v) ∈ m := by
  induction m with
  | nil => simp [alookup] at h
  | cons p rest ih =>
    obtain ⟨k1, v1⟩ := p
    simp only [alookup] at h
    by_cases hp : k1 = k
    · rw [if_pos hp] at h
      obtain rfl : v1 = v := by simpa using h
      subst hp
      exact List.mem_cons_self _ _
    · rw [if_neg hp] at h
      exact List.mem_cons_of_mem _ (ih h)

/-! ### find? lemmas -/

theorem find?_append_some {α : Type} (p : α → Bool) (l1 l2 : List α) (a : α)
    (h : l1.find? p = some a) : (l1 ++ l2).find? p = some a := by
  induction l1 with
  | nil => simp [List.find?] at h
  | cons b rest ih =>
    cases hb : p b with
    | true =>
      rw [List.find?_cons_of_pos _ hb] at h
      rw [List.cons_append, List.find?_cons_of_pos _ hb]
      exact h
    | false =>
      have hb2 : ¬p b = true := by simp [hb]
      rw [List.find?_cons_of_neg _ hb2] at h
      rw [List.cons_append, List.find?_cons_of_neg _ hb2]
      exact ih h

theorem find?_append_none {α : Type} (p : α → Bool) (l1 l2 : List α)
    (h : l1.find? p = none) : (l1 ++ l2).find? p = l2.find? p := by
  induction l1 with
  | nil => rfl
  | cons b rest ih =>
    cases hb : p b with
    | true => simp [List.find?_cons_of_pos _ hb] at h
    | false =>
      have hb2 : ¬p b = true := by simp [hb]
      rw [List.find?_cons_of_neg _ hb2] at h
      rw [List.cons_append, List.find?_cons_of_neg _ hb2]
      exact ih h

theorem find?_eq_some_decomp {α : Type} (p : α → Bool) (l : List α) (a : α)
    (h : l.find? p = some a) :
    p a = true ∧ ∃ pre post, l = pre ++ a :: post ∧ ∀ x ∈ pre, p x = false := by
  induction l with
  | nil => simp [List.find?] at h
  | cons b rest ih =>
    cases hb : p b with
    | true =>
      rw [List.find?_cons_of_pos _ hb] at h
      obtain rfl : b = a := by simpa using h
      exact ⟨hb, [], rest, rfl, by simp⟩
    | false =>
      rw [List.find?_cons_of_neg _ (by simp [hb])] at h
      obtain ⟨hp, pre, post, heq, hpre⟩ := ih h
      refine ⟨hp, b :: pre, post, by simp [heq], ?_⟩
      intro x hx
      rcases List.mem_cons.mp hx with rfl | hx2
      · exact hb
      · exact hpre x hx2

end ChatApp

namespace ChatApp

/-! ### Identity-store lemmas -/

theorem findTok_map_upd (t tk nm : String) (l : List TokenRec) :
    (l.map (fun r => if r.token = tk then { r with name := nm } else r)).find?
        (fun r => r.token = t)
      = (l.find? (fun r => r.token = t)).map
          (fun r => if r.token = tk then { r with name := nm } else r) := by
  induction l with
  | nil => rfl
  | cons r rest ih =>
    have htok : (if r.token = tk then { r with name := nm } else r).token = r.token := by
      split <;> rfl
    by_cases ht : r.token = t
    · have h2 : decide ((if r.token = tk then { r with name := nm } else r).token = t) = true := by
        rw [htok]
        simp [ht]
      rw [List.map_cons,
        @List.find?_cons_of_pos TokenRec (fun r => decide (r.token = t)) _ _ h2,
        @List.find?_cons_of_pos TokenRec (fun r => decide (r.token = t)) r rest (by simp [ht])]
      rfl
    · have h2 : ¬decide ((if r.token = tk then { r with name := nm } else r).token = t) = true := by
        rw [htok]
        simp [ht]
      rw [List.map_cons,
        @List.find?_cons_of_neg TokenRec (fun r => decide (r.token = t)) _ _ h2,
        @List.find?_cons_of_neg TokenRec (fun r => decide (r.token = t)) r rest (by simp [ht])]
      exact ih

theorem find?_some_of_findTok {t : String} {db : DB} {rec : TokenRec}
    (h : findTok t db = some rec) : rec.token = t := by
  have := List.find?_some h
  simpa using this

theorem findTok_ensure_preserved (fp : String) (now : Nat) (tk nm t : String) (db : DB)
    (rec : TokenRec) (h : findTok t db = some rec) :
    ∃ rec2, findTok t (ensure_token_record fp now tk nm db) = some rec2
      ∧ rec2.public_token = rec.public_token ∧ rec2.token = rec.token
      ∧ rec2.created_ts = rec.created_ts := by
  unfold ensure_token_record
  split
  · refine ⟨if rec.token = tk then { rec with name := nm } else rec, ?_, ?_, ?_, ?_⟩
    · show (db.tokens.map _).find? _ = _
      rw [findTok_map_upd]
      rw [show db.tokens.find? (fun r => r.token = t) = some rec from h]
      rfl
    · split <;> rfl
    · split <;> rfl
    · split <;> rfl
  · exact ⟨rec, find?_append_some _ _ _ _ h, rfl, rfl, rfl⟩

theorem findTok_ensure_self (fp : String) (now : Nat) (tk nm : String) (db : DB) :
    ∃ rec2, findTok tk (ensure_token_record fp now tk nm db) = some rec2
      ∧ rec2.name = nm ∧ rec2.token = tk := by
  unfold ensure_token_record
  split
  · rename_i hs
    obtain ⟨rec, hrec⟩ := Option.isSome_iff_exists.mp hs
    have htk : rec.token = tk := find?_some_of_findTok hrec
    refine ⟨{ rec with name := nm }, ?_, rfl, htk⟩
    show (db.tokens.map _).find? _ = _
    rw [findTok_map_upd]
    rw [show db.tokens.find? (fun r => r.token = tk) = some rec from hrec]
    simp [htk]
  · rename_i hs
    have hnone : findTok tk db = none := by
      rcases h : findTok tk db with _ | rec
      · rfl
      · rw [h] at hs
        simp at hs
    unfold findTok at hnone
    refine ⟨⟨tk, nm, fp, now⟩, ?_, rfl, rfl⟩
    show List.find? (fun r => decide (r.token = tk))
      (db.tokens ++ [TokenRec.mk tk nm fp now]) = some (TokenRec.mk tk nm fp now)
    rw [find?_append_none _ _ _ hnone]
    simp [List.find?]

/-! ### resolve_identity / reassociate lemmas -/

theorem resolve_preserves_tok (ft fp : String) (now : Nat) (rn : String)
    (pt : Option String) (db : DB) (t : String) (rec : TokenRec)
    (h : findTok t db = some rec) :
    ∃ rec2, findTok t (resolve_identity ft fp now rn pt db).2.2 = some rec2
      ∧ rec2.public_token = rec.public_token ∧ rec2.token = rec.token := by
  unfold resolve_identity
  split
  · split
    · split
      · obtain ⟨rec2, h2, h3, h4, _⟩ := findTok_ensure_preserved fp now ft
          (if rn = "" then "anon" else rn) t db rec h
        exact ⟨rec2, h2, h3, h4⟩
      · exact ⟨rec, h, rfl, rfl⟩
    · obtain ⟨rec2, h2, h3, h4, _⟩ := findTok_ensure_preserved fp now ft
        (if rn = "" then "anon" else rn) t db rec h
      exact ⟨rec2, h2, h3, h4⟩
  · obtain ⟨rec2, h2, h3, h4, _⟩ := findTok_ensure_preserved fp now ft
      (if rn = "" then "anon" else rn) t db rec h
    exact ⟨rec2, h2, h3, h4⟩

theorem reassociate_preserves_tok (ip fp : String) (now : Nat) (token name : String)
    (db : DB) (t : String) (rec : TokenRec) (h : findTok t db = some rec) :
    ∃ rec2, findTok t (reassociate ip fp now token name db).2 = some rec2
      ∧ rec2.public_token = rec.public_token ∧ rec2.token = rec.token := by
  unfold reassociate
  split
  · split
    · split
      · exact ⟨rec, h, rfl, rfl⟩
      · obtain ⟨rec2, h2, h3, h4, _⟩ := findTok_ensure_preserved fp now token _ t db rec h
        exact ⟨rec2, h2, h3, h4⟩
    · exact ⟨rec, h, rfl, rfl⟩
  · exact ⟨rec, h, rfl, rfl⟩

theorem resolve_token_present (ft fp : String) (now : Nat) (rn : String)
    (pt : Option String) (db : DB) :
    (findTok (resolve_identity ft fp now rn pt db).2.1
      (resolve_identity ft fp now rn pt db).2.2).isSome := by
  unfold resolve_identity
  split
  · rename_i pt2 hpt
    have hpt2 : ¬pt2 = "" := by
      rcases pt with _ | s
      · simp [truthyStr] at hpt
      · by_cases hs : s = ""
        · simp [truthyStr, hs] at hpt
        · have hsp : s = pt2 := by simpa [truthyStr, hs] using hpt
          rw [← hsp]
          exact hs
    rcases hname : get_name_by_token (some pt2) db with _ | sn
    · obtain ⟨rec2, h2, _, _⟩ := findTok_ensure_self fp now ft (if rn = "" then "anon" else rn) db
      simp [h2]
    · simp only
      split
      · obtain ⟨rec2, h2, _, _⟩ := findTok_ensure_self fp now ft (if rn = "" then "anon" else rn) db
        simp [h2]
      · have hname2 : (if pt2 = "" then none
            else Option.map (fun r => r.name) (findTok pt2 db)) = some sn := hname
        rw [if_neg hpt2] at hname2
        show (findTok pt2 db).isSome = true
        rcases hf : findTok pt2 db with _ | rec
        · rw [hf] at hname2
          simp at hname2
        · rfl
  · obtain ⟨rec2, h2, _, _⟩ := findTok_ensure_self fp now ft (if rn = "" then "anon" else rn) db
    simp [h2]

end ChatApp

namespace ChatApp

/-! ### on_register bridge lemmas -/

theorem on_register_db (ft fp : String) (now : Nat) (req : Req) (d : RegData)
    (st : AppState) :
    (on_register ft fp now req d st).1.db
      = (reassociate (get_client_ip req) fp now
          (resolve_identity ft fp now (pyStrip (d.name.getD "")) d.token st.db).2.1
          (resolve_identity ft fp now (pyStrip (d.name.getD "")) d.token st.db).1
          (resolve_identity ft fp now (pyStrip (d.name.getD "")) d.token st.db).2.2).2 := by
  simp only [on_register]
  split <;> rfl

theorem on_register_welcome_name (ft fp : String) (now : Nat) (req : Req) (d : RegData)
    (st : AppState) :
    (on_register ft fp now req d st).2.1.name
      = (reassociate (get_client_ip req) fp now
          (resolve_identity ft fp now (pyStrip (d.name.getD "")) d.token st.db).2.1
          (resolve_identity ft fp now (pyStrip (d.name.getD "")) d.token st.db).1
          (resolve_identity ft fp now (pyStrip (d.name.getD "")) d.token st.db).2.2).1 := by
  simp only [on_register]
  split <;> rfl

theorem on_register_welcome_token (ft fp : String) (now : Nat) (req : Req) (d : RegData)
    (st : AppState) :
    (on_register ft fp now req d st).2.1.token
      = (resolve_identity ft fp now (pyStrip (d.name.getD "")) d.token st.db).2.1 := by
  simp only [on_register]
  split <;> rfl

/-! ### last-n / order lemmas for history -/

theorem take_reverse_drop {α : Type} (r : List α) :
    ∀ n, (r.take n).reverse = r.reverse.drop (r.length - n) := by
  induction r with
  | nil =>
    intro n
    simp
  | cons a r ih =>
    intro n
    cases n with
    | zero =>
      simp [List.drop_eq_nil_of_le]
    | succ m =>
      simp only [List.take_succ_cons, List.reverse_cons, List.length_cons]
      rw [ih m]
      have hsub : r.length + 1 - (m + 1) = r.length - m := by omega
      rw [hsub]
      rw [List.drop_append_of_le_length (by simp [Nat.sub_le])]

theorem reverse_take_reverse {α : Type} (l : List α) (n : Nat) :
    (l.reverse.take n).reverse = l.drop (l.length - n) := by
  have h := take_reverse_drop l.reverse n
  simpa using h

end ChatApp

namespace ChatApp

/-! ### Forced-disconnect fold lemmas -/

theorem foldl_fd_db (ks : List String) (s0 : AppState) :
    (ks.foldl (fun s sid => full_disconnect sid s) s0).db = s0.db := by
  induction ks generalizing s0 with
  | nil => rfl
  | cons k0 ks ih =>
    rw [List.foldl_cons, ih]
    rfl

theorem foldl_fd_token (ks : List String) (s0 : AppState) (k : String) :
    alookup k (ks.foldl (fun s sid => full_disconnect sid s) s0).live.sid_to_token
      = if k ∈ ks then none else alookup k s0.live.sid_to_token := by
  induction ks generalizing s0 with
  | nil => simp
  | cons k0 ks ih =>
    rw [List.foldl_cons, ih]
    have hstep : alookup k (full_disconnect k0 s0).live.sid_to_token
        = if k = k0 then none else alookup k s0.live.sid_to_token := by
      show alookup k (aerase k0 s0.live.sid_to_token) = _
      exact alookup_aerase k k0 _
    by_cases hmem : k ∈ ks
    · rw [if_pos hmem, if_pos (show k ∈ k0 :: ks from List.mem_cons_of_mem _ hmem)]
    · by_cases hk0 : k = k0
      · rw [if_neg hmem, hstep, if_pos hk0,
          if_pos (show k ∈ k0 :: ks from by simp [hk0])]
      · rw [if_neg hmem, hstep, if_neg hk0,
          if_neg (show ¬k ∈ k0 :: ks from by simp [hk0, hmem])]

theorem foldl_fd_connected_sub (ks : List String) (s0 : AppState) :
    (ks.foldl (fun s sid => full_disconnect sid s) s0).live.connected
      ⊆ s0.live.connected := by
  induction ks generalizing s0 with
  | nil => exact fun x hx => hx
  | cons k0 ks ih =>
    rw [List.foldl_cons]
    intro x hx
    have hx2 := ih (full_disconnect k0 s0) hx
    have : (full_disconnect k0 s0).live.connected ⊆ s0.live.connected := by
      intro y hy
      exact (List.mem_filter.mp hy).1
    exact this hx2

theorem foldl_fd_sio_sub (ks : List String) (s0 : AppState) :
    (ks.foldl (fun s sid => full_disconnect sid s) s0).live.sio_rooms
      ⊆ s0.live.sio_rooms := by
  induction ks generalizing s0 with
  | nil => exact fun x hx => hx
  | cons k0 ks ih =>
    rw [List.foldl_cons]
    intro x hx
    have hx2 := ih (full_disconnect k0 s0) hx
    have : (full_disconnect k0 s0).live.sio_rooms ⊆ s0.live.sio_rooms := by
      intro y hy
      exact (List.mem_filter.mp hy).1
    exact this hx2

theorem foldl_fd_connected_out (ks : List String) (s0 : AppState) (k : String)
    (h : k ∈ ks) :
    k ∉ (ks.foldl (fun s sid => full_disconnect sid s) s0).live.connected := by
  induction ks generalizing s0 with
  | nil => simp at h
  | cons k0 ks ih =>
    rw [List.foldl_cons]
    by_cases hmem : k ∈ ks
    · exact ih (full_disconnect k0 s0) hmem
    · have hk0 : k = k0 := by
        rcases List.mem_cons.mp h with h1 | h1
        · exact h1
        · exact absurd h1 hmem
      intro hcon
      have hsub := foldl_fd_connected_sub ks (full_disconnect k0 s0) hcon
      have := (List.mem_filter.mp hsub).2
      simp [hk0] at this

theorem foldl_fd_sio_out (ks : List String) (s0 : AppState) (k r : String)
    (h : k ∈ ks) :
    (k, r) ∉ (ks.foldl (fun s sid => full_disconnect sid s) s0).live.sio_rooms := by
  induction ks generalizing s0 with
  | nil => simp at h
  | cons k0 ks ih =>
    rw [List.foldl_cons]
    by_cases hmem : k ∈ ks
    · exact ih (full_disconnect k0 s0) hmem
    · have hk0 : k = k0 := by
        rcases List.mem_cons.mp h with h1 | h1
        · exact h1
        · exact absurd h1 hmem
      intro hcon
      have hsub := foldl_fd_sio_sub ks (full_disconnect k0 s0) hcon
      have := (List.mem_filter.mp hsub).2
      simp [hk0] at this

/-! ### Key-set preservation lemmas -/

theorem sameKeySets_full_disconnect (sid : String) (st : AppState)
    (h : sameKeySets st.live) : sameKeySets (full_disconnect sid st).live := by
  obtain ⟨h1, h2⟩ := h
  constructor
  · intro k
    show (alookup k (aerase sid st.live.sid_to_name)).isSome
      ↔ (alookup k (aerase sid st.live.sid_to_token)).isSome
    rw [alookup_aerase, alookup_aerase]
    by_cases hk : k = sid
    · simp [hk]
    · simp only [if_neg hk]
      exact h1 k
  · intro k
    show (alookup k (aerase sid st.live.sid_to_name)).isSome
      ↔ (alookup k (aerase sid st.live.sid_to_room)).isSome
    rw [alookup_aerase, alookup_aerase]
    by_cases hk : k = sid
    · simp [hk]
    · simp only [if_neg hk]
      exact h2 k

theorem sameKeySets_register_live_update (sid name token : String)
    (desired : Option String) (db : DB) (l : Live) (h : sameKeySets l) :
    sameKeySets (register_live_update sid name token desired db l) := by
  obtain ⟨h1, h2⟩ := h
  unfold register_live_update
  split
  · split
    · constructor
      · intro k
        show (alookup k (aset sid name l.sid_to_name)).isSome
          ↔ (alookup k (aset sid token l.sid_to_token)).isSome
        rw [isSome_alookup_aset, isSome_alookup_aset]
        constructor
        · rintro (hk | hk)
          · exact Or.inl hk
          · exact Or.inr ((h1 k).mp hk)
        · rintro (hk | hk)
          · exact Or.inl hk
          · exact Or.inr ((h1 k).mpr hk)
      · intro k
        rename_i r _
        show (alookup k (aset sid name l.sid_to_name)).isSome
          ↔ (alookup k (aset sid (some r) (aset sid none l.sid_to_room))).isSome
        rw [isSome_alookup_aset, isSome_alookup_aset, isSome_alookup_aset]
        constructor
        · rintro (hk | hk)
          · exact Or.inl hk
          · exact Or.inr (Or.inr ((h2 k).mp hk))
        · rintro (hk | hk | hk)
          · exact Or.inl hk
          · exact Or.inl hk
          · exact Or.inr ((h2 k).mpr hk)
    · constructor
      · intro k
        show (alookup k (aset sid name l.sid_to_name)).isSome
          ↔ (alookup k (aset sid token l.sid_to_token)).isSome
        rw [isSome_alookup_aset, isSome_alookup_aset]
        constructor
        · rintro (hk | hk)
          · exact Or.inl hk
          · exact Or.inr ((h1 k).mp hk)
        · rintro (hk | hk)
          · exact Or.inl hk
          · exact Or.inr ((h1 k).mpr hk)
      · intro k
        show (alookup k (aset sid name l.sid_to_name)).isSome
          ↔ (alookup k (aset sid none l.sid_to_room)).isSome
        rw [isSome_alookup_aset, isSome_alookup_aset]
        constructor
        · rintro (hk | hk)
          · exact Or.inl hk
          · exact Or.inr ((h2 k).mp hk)
        · rintro (hk | hk)
          · exact Or.inl hk
          · exact Or.inr ((h2 k).mpr hk)
  · constructor
    · intro k
      show (alookup k (aset sid name l.sid_to_name)).isSome
        ↔ (alookup k (aset sid token l.sid_to_token)).isSome
      rw [isSome_alookup_aset, isSome_alookup_aset]
      constructor
      · rintro (hk | hk)
        · exact Or.inl hk
        · exact Or.inr ((h1 k).mp hk)
      · rintro (hk | hk)
        · exact Or.inl hk
        · exact Or.inr ((h1 k).mpr hk)
    · intro k
      show (alookup k (aset sid name l.sid_to_name)).isSome
        ↔ (alookup k (aset sid none l.sid_to_room)).isSome
      rw [isSome_alookup_aset, isSome_alookup_aset]
      constructor
      · rintro (hk | hk)
        · exact Or.inl hk
        · exact Or.inr ((h2 k).mp hk)
      · rintro (hk | hk)
        · exact Or.inl hk
        · exact Or.inr ((h2 k).mpr hk)

theorem sameKeySets_foldl_fd (ks : List String) (s0 : AppState)
    (h : sameKeySets s0.live) :
    sameKeySets (ks.foldl (fun s sid => full_disconnect sid s) s0).live := by
  induction ks generalizing s0 with
  | nil => exact h
  | cons k0 ks ih =>
    rw [List.foldl_cons]
    exact ih _ (sameKeySets_full_disconnect k0 s0 h)

end ChatApp

namespace ChatApp

/-- A sample identity record used by concrete witnesses. -/
def sampleRec : TokenRec := ⟨"T1", "alice", "PUB1", 0⟩

/-- A sample durable store: one identity, one room-"A" message, room "A". -/
def sampleDB : DB :=
  ⟨[sampleRec], [⟨"1.2.3.4", 5, "hello", some "T1", some "A"⟩], [⟨"A", "A", "", 0⟩], []⟩

/-- A sample live state: one registered session "S1" in room "A", a second
connected socket "S2". -/
def sampleLive : Live :=
  ⟨[("S1", "alice")], [("S1", "T1")], [("S1", some "A")], ["S1", "S2"], [("S1", "A")]⟩

/-- A sample whole-program state. -/
def sampleState : AppState := ⟨sampleDB, sampleLive⟩

/-- C10: the network origin recorded with every message is
client-influenced: with a truthy `X-Forwarded-For` header `get_client_ip`
returns its first comma-separated entry (trimmed); with no truthy
`X-Forwarded-For` it does the same for `X-Real-IP`; only when neither is
present does it fall back to the transport remote address; and `on_msg`
stores exactly this value as the message's `sender_ip`. -/
theorem c10_client_origin (req : Req) (text : String) (room : Option String)
    (now : Nat) (st : AppState) :
    (∀ s, truthyStr req.xff = some s →
      get_client_ip req = pyStrip ((pySplitComma s).headD ""))
    ∧ (truthyStr req.xff = none → ∀ s, truthyStr req.xrealip = some s →
      get_client_ip req = pyStrip ((pySplitComma s).headD ""))
    ∧ (truthyStr req.xff = none → truthyStr req.xrealip = none →
      get_client_ip req = req.remote_addr)
    ∧ (on_msg req text room now st).1.db.messages
      = st.db.messages
        ++ [⟨get_client_ip req, now, text, alookup req.sid st.live.sid_to_token, room⟩] := by
  refine ⟨?_, ?_, ?_, ?_⟩
  · intro s hs
    unfold get_client_ip
    rw [hs]
    rfl
  · intro h1 s h2
    unfold get_client_ip
    rw [h1]
    show (match truthyStr req.xrealip with
      | some s => pyStrip ((pySplitComma s).headD "")
      | none => req.remote_addr) = _
    rw [h2]
  · intro h1 h2
    unfold get_client_ip
    rw [h1]
    show (match truthyStr req.xrealip with
      | some s => pyStrip ((pySplitComma s).headD "")
      | none => req.remote_addr) = _
    rw [h2]
  · rfl

/-- C10 witness: a concrete request carrying
`X-Forwarded-For: 1.2.3.4, 9.9.9.9` is attributed to `1.2.3.4`. -/
theorem c10_client_origin_witness :
    get_client_ip ⟨some "1.2.3.4, 9.9.9.9", none, "127.0.0.1", "S9"⟩
      = pyStrip ((pySplitComma "1.2.3.4, 9.9.9.9").headD "") :=
  (c10_client_origin ⟨some "1.2.3.4, 9.9.9.9", none, "127.0.0.1", "S9"⟩ "hi" none 0
    sampleState).1 "1.2.3.4, 9.9.9.9" (by decide)

/-- C9: history for a newly joined session is the last `limit` messages of
the relevant scope: it equals the scope's suffix of length at most
`limit`, is at most `limit` long, is ordered oldest-to-newest by
timestamp (given append-ordered timestamps), and every non-banned
registration's emitted history is the rendering of `recent_messages 200`
at some room scope. -/
theorem c9_history_order (limit : Nat) (room_code : Option String) (db : DB)
    (h : db.messages.Pairwise (fun a b => a.ts ≤ b.ts)) :
    recent_messages limit room_code db
      = (scope_messages room_code db).drop ((scope_messages room_code db).length - limit)
    ∧ (recent_messages limit room_code db).length ≤ limit
    ∧ (recent_messages limit room_code db).Pairwise (fun a b => a.ts ≤ b.ts)
    ∧ (∀ ft fp now req d st lines,
        (on_register ft fp now req d st).2.2 = some lines →
        ∃ rm, lines = render_history (on_register ft fp now req d st).1.db
          (recent_messages 200 rm (on_register ft fp now req d st).1.db)) := by
  have hscope : (scope_messages room_code db).Pairwise (fun a b => a.ts ≤ b.ts) := by
    unfold scope_messages
    split
    · split
      · exact h
      · exact List.Pairwise.filter _ h
    · exact h
  have h1 : recent_messages limit room_code db
      = (scope_messages room_code db).drop ((scope_messages room_code db).length - limit) :=
    reverse_take_reverse _ _
  refine ⟨h1, ?_, ?_, ?_⟩
  · show ((((scope_messages room_code db).reverse).take limit).reverse).length ≤ limit
    rw [List.length_reverse, List.length_take]
    exact min_le_left _ _
  · rw [h1]
    exact List.Pairwise.sublist (List.drop_sublist _ _) hscope
  · intro ft fp now req d st lines hl
    simp only [on_register] at hl ⊢
    split at hl
    · simp at hl
    · rename_i hb
      rw [if_neg hb]
      refine ⟨(alookup req.sid (register_live_update req.sid
        (reassociate (get_client_ip req) fp now
          (resolve_identity ft fp now (pyStrip (d.name.getD "")) d.token st.db).2.1
          (resolve_identity ft fp now (pyStrip (d.name.getD "")) d.token st.db).1
          (resolve_identity ft fp now (pyStrip (d.name.getD "")) d.token st.db).2.2).1
        (resolve_identity ft fp now (pyStrip (d.name.getD "")) d.token st.db).2.1
        ((truthyStr d.room).orElse (fun _ => truthyStr d.room_code))
        (reassociate (get_client_ip req) fp now
          (resolve_identity ft fp now (pyStrip (d.name.getD "")) d.token st.db).2.1
          (resolve_identity ft fp now (pyStrip (d.name.getD "")) d.token st.db).1
          (resolve_identity ft fp now (pyStrip (d.name.getD "")) d.token st.db).2.2).2
        st.live).sid_to_room).bind id, ?_⟩
      injection hl with hl2
      exact hl2.symm

/-- C9 witness: a two-message log with ascending timestamps, scoped to
room "A", truncated to 1. -/
theorem c9_history_order_witness :
    recent_messages 1 (some "A")
        ⟨[], [⟨"ip", 1, "m1", none, some "A"⟩, ⟨"ip", 2, "m2", none, some "A"⟩], [], []⟩
      = (scope_messages (some "A")
          ⟨[], [⟨"ip", 1, "m1", none, some "A"⟩, ⟨"ip", 2, "m2", none, some "A"⟩], [], []⟩).drop
        ((scope_messages (some "A")
          ⟨[], [⟨"ip", 1, "m1", none, some "A"⟩, ⟨"ip", 2, "m2", none, some "A"⟩], [], []⟩).length - 1) :=
  (c9_history_order 1 (some "A")
    ⟨[], [⟨"ip", 1, "m1", none, some "A"⟩, ⟨"ip", 2, "m2", none, some "A"⟩], [], []⟩
    (by decide)).1

/-- C5: the public identifier of an identity record is never changed by a
registration: any token row present before `on_register` is still present
afterwards with the same `public_token` (and the same `token`). -/
theorem c5_public_token_invariant (ft fp : String) (now : Nat) (req : Req)
    (d : RegData) (st : AppState) (t : String) (rec : TokenRec)
    (h : findTok t st.db = some rec) :
    ∃ rec2, findTok t (on_register ft fp now req d st).1.db = some rec2
      ∧ rec2.public_token = rec.public_token ∧ rec2.token = rec.token := by
  rw [on_register_db]
  obtain ⟨rec1, h1, h2, h3⟩ :=
    resolve_preserves_tok ft fp now (pyStrip (d.name.getD "")) d.token st.db t rec h
  obtain ⟨rec2, h4, h5, h6⟩ :=
    reassociate_preserves_tok (get_client_ip req) fp now _ _ _ t rec1 h1
  exact ⟨rec2, h4, h5.trans h2, h6.trans h3⟩

/-- C5 witness: re-registering the known credential "T1" (with a new
requested name) leaves its public token "PUB1" intact. -/
theorem c5_public_token_invariant_witness :
    ∃ rec2, findTok "T1" (on_register "FT" "FP" 9 ⟨none, none, "7.7.7.7", "S9"⟩
        ⟨some "carol", some "T1", none, none⟩ sampleState).1.db = some rec2
      ∧ rec2.public_token = "PUB1" ∧ rec2.token = "T1" := by
  obtain ⟨rec2, h1, h2, h3⟩ := c5_public_token_invariant "FT" "FP" 9
    ⟨none, none, "7.7.7.7", "S9"⟩ ⟨some "carol", some "T1", none, none⟩
    sampleState "T1" sampleRec (by decide)
  exact ⟨rec2, h1, h2, h3⟩

end ChatApp

namespace ChatApp

/-- C3: banning a credential takes immediate effect: after `admin_ban t`,
`t` is in the ban table; no live session maps to `t` any more; every
connection that had a live session with credential `t` has been removed
from the connection set and from every transport room; the ban-table
insert happens before the disconnect sweep (the sweep folds over a state
that already contains the ban); and no such connection is targeted by any
subsequent `on_msg` fan-out. -/
theorem c3_ban_immediate (t : String) (ht : ¬t = "") (st : AppState) :
    t ∈ (admin_ban t st).db.banned
    ∧ (∀ sid, alookup sid (admin_ban t st).live.sid_to_token ≠ some t)
    ∧ (∀ sid, alookup sid st.live.sid_to_token = some t →
        sid ∉ (admin_ban t st).live.connected
        ∧ ∀ r, (sid, r) ∉ (admin_ban t st).live.sio_rooms)
    ∧ admin_ban t st
      = ((st.live.sid_to_token.filter (fun p => p.2 = t)).map Prod.fst).foldl
          (fun s sid => full_disconnect sid s) ⟨ban_token t st.db, st.live⟩
    ∧ (∀ sid req2 text2 room2 now2, alookup sid st.live.sid_to_token = some t →
        sid ∉ (on_msg req2 text2 room2 now2 (admin_ban t st)).2.2) := by
  have heq : admin_ban t st
      = ((st.live.sid_to_token.filter (fun p => p.2 = t)).map Prod.fst).foldl
          (fun s sid => full_disconnect sid s) ⟨ban_token t st.db, st.live⟩ := by
    unfold admin_ban
    rw [if_neg ht]
  have hmem : ∀ sid, alookup sid st.live.sid_to_token = some t →
      sid ∈ (st.live.sid_to_token.filter (fun p => p.2 = t)).map Prod.fst := by
    intro sid hsid
    exact List.mem_map.mpr ⟨(sid, t),
      List.mem_filter.mpr ⟨alookup_eq_some_mem sid t _ hsid, by simp⟩, rfl⟩
  refine ⟨?_, ?_, ?_, heq, ?_⟩
  · rw [heq, foldl_fd_db]
    simp [ban_token]
  · intro sid
    rw [heq, foldl_fd_token]
    by_cases hm : sid ∈ (st.live.sid_to_token.filter (fun p => p.2 = t)).map Prod.fst
    · simp [hm]
    · rw [if_neg hm]
      intro hc
      exact hm (hmem sid hc)
  · intro sid hsid
    have hm := hmem sid hsid
    rw [heq]
    exact ⟨foldl_fd_connected_out _ _ _ hm, fun r => foldl_fd_sio_out _ _ _ r hm⟩
  · intro sid req2 text2 room2 now2 hsid
    have hm := hmem sid hsid
    rcases room2 with _ | r
    · show sid ∉ (admin_ban t st).live.connected
      rw [heq]
      exact foldl_fd_connected_out _ _ _ hm
    · show sid ∉ (if r = "" then (admin_ban t st).live.connected
        else ((admin_ban t st).live.sio_rooms.filter (fun p => p.2 = r)).map Prod.fst)
      by_cases hr : r = ""
      · rw [if_pos hr, heq]
        exact foldl_fd_connected_out _ _ _ hm
      · rw [if_neg hr]
        intro hin
        obtain ⟨p, hp, hfst⟩ := List.mem_map.mp hin
        have hpm : p ∈ (admin_ban t st).live.sio_rooms := (List.mem_filter.mp hp).1
        have hpair : p = (sid, p.2) := by
          cases p
          simp_all
        rw [hpair, heq] at hpm
        exact foldl_fd_sio_out _ _ _ p.2 hm hpm

/-- C3 witness: banning "T1" in the sample state removes session "S1"
everywhere and records the ban. -/
theorem c3_ban_immediate_witness :
    "T1" ∈ (admin_ban "T1" sampleState).db.banned
    ∧ (alookup "S1" (admin_ban "T1" sampleState).live.sid_to_token ≠ some "T1")
    ∧ ("S1" ∉ (admin_ban "T1" sampleState).live.connected
        ∧ ("S1", "A") ∉ (admin_ban "T1" sampleState).live.sio_rooms) := by
  obtain ⟨h1, h2, h3, _, _⟩ := c3_ban_immediate "T1" (by decide) sampleState
  have h4 := h3 "S1" (by decide)
  exact ⟨h1, h2 "S1", h4.1, h4.2 "A"⟩

end ChatApp

namespace ChatApp

/-- C4: when the resolved name is empty or placeholder-patterned
(case-insensitive "anon" prefix), registration scans the 50 most recent
origin-matching messages in reverse time order: if some sender has a
current non-placeholder name, the first such name is adopted as the
welcome name and persisted for the session's credential; if none exists
the resolved name is kept and the store is left as resolution produced
it.  The scan result is characterised as the first nonempty
non-placeholder entry of the bounded lookback window. -/
theorem c4_reassociation (ft fp : String) (now : Nat) (req : Req) (d : RegData)
    (st : AppState) (n0 token : String) (db1 : DB)
    (hres : resolve_identity ft fp now (pyStrip (d.name.getD "")) d.token st.db = (n0, token, db1))
    (hanon : n0 = "" ∨ isAnonName n0 = true) :
    (∀ nm, last_non_anon_name_for_ip (get_client_ip req) db1 = some nm →
      (on_register ft fp now req d st).2.1.name = nm
      ∧ ∃ r2, findTok token (on_register ft fp now req d st).1.db = some r2 ∧ r2.name = nm)
    ∧ (last_non_anon_name_for_ip (get_client_ip req) db1 = none →
      (on_register ft fp now req d st).2.1.name = n0
      ∧ (on_register ft fp now req d st).1.db = db1)
    ∧ (∀ ip db nm, last_non_anon_name_for_ip ip db = some nm →
        nm ≠ "" ∧ isAnonName nm = false
        ∧ ∃ pre post, reassoc_window ip db = pre ++ nm :: post
          ∧ ∀ x ∈ pre, x = "" ∨ isAnonName x = true) := by
  have hchar : ∀ ip db nm, last_non_anon_name_for_ip ip db = some nm →
      nm ≠ "" ∧ isAnonName nm = false
      ∧ ∃ pre post, reassoc_window ip db = pre ++ nm :: post
        ∧ ∀ x ∈ pre, x = "" ∨ isAnonName x = true := by
    intro ip db nm h
    obtain ⟨hp, pre, post, heq, hpre⟩ := find?_eq_some_decomp _ _ _ h
    have hne : nm ≠ "" := by
      intro he
      rw [he] at hp
      simp at hp
    have hna : isAnonName nm = false := by
      by_cases ha : isAnonName nm = true
      · rw [ha] at hp
        simp at hp
      · simpa using ha
    refine ⟨hne, hna, pre, post, heq, ?_⟩
    intro x hx
    have hfx := hpre x hx
    by_cases hxe : x = ""
    · exact Or.inl hxe
    · by_cases hxa : isAnonName x = true
      · exact Or.inr hxa
      · exfalso
        simp [hxe, hxa] at hfx
  have hdb := on_register_db ft fp now req d st
  have hname := on_register_welcome_name ft fp now req d st
  rw [hres] at hdb hname
  refine ⟨?_, ?_, hchar⟩
  · intro nm hin
    have hnm := (hchar _ _ _ hin).1
    have hre : reassociate (get_client_ip req) fp now token n0 db1
        = (nm, ensure_token_record fp now token nm db1) := by
      unfold reassociate
      rw [if_pos hanon, hin]
      show (if nm = "" then (n0, db1)
        else (nm, ensure_token_record fp now token nm db1)) = _
      rw [if_neg hnm]
    constructor
    · rw [hname]
      show (reassociate (get_client_ip req) fp now token n0 db1).1 = nm
      rw [hre]
    · rw [hdb]
      show ∃ r2, findTok token
        (reassociate (get_client_ip req) fp now token n0 db1).2 = some r2 ∧ r2.name = nm
      rw [hre]
      obtain ⟨r2, h1, h2, _⟩ := findTok_ensure_self fp now token nm db1
      exact ⟨r2, h1, h2⟩
  · intro hnone
    have hre : reassociate (get_client_ip req) fp now token n0 db1 = (n0, db1) := by
      unfold reassociate
      rw [if_pos hanon, hnone]
    constructor
    · rw [hname]
      show (reassociate (get_client_ip req) fp now token n0 db1).1 = n0
      rw [hre]
    · rw [hdb]
      show (reassociate (get_client_ip req) fp now token n0 db1).2 = db1
      rw [hre]

/-- Durable store for the C4 witness: identity "T1"/"alice" and one old
message from origin 9.9.9.9 sent under "T1". -/
def c4DB : DB :=
  ⟨[⟨"T1", "alice", "PUB1", 0⟩], [⟨"9.9.9.9", 1, "old", some "T1", none⟩], [], []⟩

/-- Starting state for the C4 witness: empty live maps. -/
def c4State : AppState := ⟨c4DB, ⟨[], [], [], [], []⟩⟩

/-- The store after minting the fresh credential "FT" under "anon7". -/
def c4DB1 : DB :=
  ⟨[⟨"T1", "alice", "PUB1", 0⟩, ⟨"FT", "anon7", "FP", 5⟩],
    [⟨"9.9.9.9", 1, "old", some "T1", none⟩], [], []⟩

/-- C4 witness: registering as "anon7" with no credential from origin
9.9.9.9 adopts and persists "alice". -/
theorem c4_reassociation_witness :
    (on_register "FT" "FP" 5 ⟨none, none, "9.9.9.9", "S1"⟩
        ⟨some "anon7", none, none, none⟩ c4State).2.1.name = "alice"
    ∧ ∃ r2, findTok "FT" (on_register "FT" "FP" 5 ⟨none, none, "9.9.9.9", "S1"⟩
        ⟨some "anon7", none, none, none⟩ c4State).1.db = some r2 ∧ r2.name = "alice" :=
  (c4_reassociation "FT" "FP" 5 ⟨none, none, "9.9.9.9", "S1"⟩
      ⟨some "anon7", none, none, none⟩ c4State "anon7" "FT" c4DB1
      (by decide) (Or.inr (by decide))).1 "alice" (by decide)

end ChatApp

namespace ChatApp

/-- An empty live state (process start). -/
def emptyLive : Live := ⟨[], [], [], [], []⟩

/-- C6 counterexample: registration with the known credential "T1"
(stored name "alice") and the new non-empty requested name "carol"
does NOT update the stored displayName: the welcome name and the stored
record both remain "alice". -/
theorem c6_counterexample :
    (on_register "FT" "FP" 9 ⟨none, none, "7.7.7.7", "S9"⟩
        ⟨some "carol", some "T1", none, none⟩ sampleState).2.1.name = "alice"
    ∧ findTok "T1" (on_register "FT" "FP" 9 ⟨none, none, "7.7.7.7", "S9"⟩
        ⟨some "carol", some "T1", none, none⟩ sampleState).1.db
      = some ⟨"T1", "alice", "PUB1", 0⟩ := by
  exact ⟨by decide, by decide⟩

/-- C6 amended: re-registering with a known credential ignores the
requested name entirely: when the stored name is non-empty and not
placeholder-patterned, the stored name is adopted as the session name,
the credential is confirmed, and the durable store is left unchanged
(the stored displayName changes only when a fresh record is minted or
the reassociation heuristic fires). -/
theorem c6_amended (ft fp : String) (now : Nat) (req : Req) (d : RegData)
    (st : AppState) (pt : String) (rec : TokenRec)
    (hpt : truthyStr d.token = some pt)
    (hrec : findTok pt st.db = some rec)
    (hne : rec.name ≠ "") (hanon : isAnonName rec.name = false) :
    (on_register ft fp now req d st).2.1.name = rec.name
    ∧ (on_register ft fp now req d st).2.1.token = pt
    ∧ (on_register ft fp now req d st).1.db = st.db := by
  have hptne : ¬pt = "" := by
    rcases htk : d.token with _ | s
    · rw [htk] at hpt
      simp [truthyStr] at hpt
    · rw [htk] at hpt
      by_cases hs : s = ""
      · simp [truthyStr, hs] at hpt
      · have hsp : s = pt := by simpa [truthyStr, hs] using hpt
        rw [← hsp]
        exact hs
  have hgn : get_name_by_token (some pt) st.db = some rec.name := by
    show (if pt = "" then none else (findTok pt st.db).map (fun r => r.name)) = some rec.name
    rw [if_neg hptne, hrec]
    rfl
  have hresolve : resolve_identity ft fp now (pyStrip (d.name.getD "")) d.token st.db
      = (rec.name, pt, st.db) := by
    unfold resolve_identity
    rw [hpt]
    dsimp only
    rw [hgn]
    dsimp only
    rw [if_neg hne]
  have hre : reassociate (get_client_ip req) fp now pt rec.name st.db
      = (rec.name, st.db) := by
    unfold reassociate
    rw [if_neg ?hc]
    case hc =>
      rintro (hx | hx)
      · exact hne hx
      · rw [hanon] at hx
        exact Bool.false_ne_true hx
  have hname := on_register_welcome_name ft fp now req d st
  have htok := on_register_welcome_token ft fp now req d st
  have hdb := on_register_db ft fp now req d st
  rw [hresolve] at hname htok hdb
  refine ⟨?_, ?_, ?_⟩
  · rw [hname]
    show (reassociate (get_client_ip req) fp now pt rec.name st.db).1 = rec.name
    rw [hre]
  · exact htok
  · rw [hdb]
    show (reassociate (get_client_ip req) fp now pt rec.name st.db).2 = st.db
    rw [hre]

/-- C6 amended witness: the known credential "T1" with requested name
"newname" keeps "alice" and leaves the store unchanged. -/
theorem c6_amended_witness :
    (on_register "FT" "FP" 9 ⟨none, none, "7.7.7.7", "S9"⟩
        ⟨some "newname", some "T1", none, none⟩ sampleState).2.1.name = sampleRec.name
    ∧ (on_register "FT" "FP" 9 ⟨none, none, "7.7.7.7", "S9"⟩
        ⟨some "newname", some "T1", none, none⟩ sampleState).2.1.token = "T1"
    ∧ (on_register "FT" "FP" 9 ⟨none, none, "7.7.7.7", "S9"⟩
        ⟨some "newname", some "T1", none, none⟩ sampleState).1.db = sampleState.db :=
  c6_amended "FT" "FP" 9 ⟨none, none, "7.7.7.7", "S9"⟩
    ⟨some "newname", some "T1", none, none⟩ sampleState "T1" sampleRec
    (by decide) (by decide) (by decide) (by decide)

end ChatApp

namespace ChatApp

theorem leave_current_room_dicts (sid : String) (l : Live) :
    (leave_current_room sid l).sid_to_name = l.sid_to_name
    ∧ (leave_current_room sid l).sid_to_token = l.sid_to_token
    ∧ (leave_current_room sid l).sid_to_room = l.sid_to_room := by
  unfold leave_current_room
  split
  · split
    · exact ⟨rfl, rfl, rfl⟩
    · exact ⟨rfl, rfl, rfl⟩
  · exact ⟨rfl, rfl, rfl⟩

theorem sameKeySets_leave_current_room (sid : String) (l : Live)
    (h : sameKeySets l) : sameKeySets (leave_current_room sid l) := by
  obtain ⟨e1, e2, e3⟩ := leave_current_room_dicts sid l
  constructor
  · intro k
    rw [e1, e2]
    exact h.1 k
  · intro k
    rw [e1, e3]
    exact h.2 k

theorem sameKeySets_mk_room_update (sid : String) (ro : Option String)
    (n t : List (String × String)) (r : List (String × Option String))
    (c : List String) (sr : List (String × String))
    (h1 : ∀ k, (alookup k n).isSome ↔ (alookup k t).isSome)
    (h2 : ∀ k, (alookup k n).isSome ↔ (alookup k r).isSome)
    (hlive : (alookup sid n).isSome) :
    sameKeySets (Live.mk n t (aset sid ro r) c sr) := by
  constructor
  · intro k
    exact h1 k
  · intro k
    show (alookup k n).isSome ↔ (alookup k (aset sid ro r)).isSome
    rw [isSome_alookup_aset]
    constructor
    · intro hk
      exact Or.inr ((h2 k).mp hk)
    · rintro (rfl | hk)
      · exact hlive
      · exact (h2 k).mpr hk

/-- C7 counterexample: `admin_move` on a connectionId with no live
session ("X") writes only the room dict: afterwards `sid_to_room` has key
"X" while `sid_to_name` and `sid_to_token` do not, so the three live maps
do not share a key set. -/
theorem c7_counterexample :
    alookup "X" (admin_move "X" "R" 0 ⟨⟨[], [], [], []⟩, emptyLive⟩).live.sid_to_room
      = some (some "R")
    ∧ alookup "X" (admin_move "X" "R" 0 ⟨⟨[], [], [], []⟩, emptyLive⟩).live.sid_to_name = none
    ∧ alookup "X" (admin_move "X" "R" 0 ⟨⟨[], [], [], []⟩, emptyLive⟩).live.sid_to_token = none
    ∧ ¬sameKeySets (admin_move "X" "R" 0 ⟨⟨[], [], [], []⟩, emptyLive⟩).live := by
  refine ⟨by decide, by decide, by decide, ?_⟩
  intro h
  have hr : (alookup "X" (admin_move "X" "R" 0
      ⟨⟨[], [], [], []⟩, emptyLive⟩).live.sid_to_room).isSome := by decide
  have hn : ¬(alookup "X" (admin_move "X" "R" 0
      ⟨⟨[], [], [], []⟩, emptyLive⟩).live.sid_to_name).isSome := by decide
  exact hn ((h.2 "X").mpr hr)

/-- C7 amended: register, disconnect, kick and ban each update the three
live dicts together, preserving the equal-key-set invariant; force-move
preserves it only for a connectionId that is actually live — applied to
an unknown connectionId it inserts a room entry the other two dicts
lack. -/
theorem c7_amended :
    (∀ ft fp now req d st, sameKeySets st.live →
      sameKeySets ((on_register ft fp now req d st) : AppState × Welcome × Option (List String)).1.live)
    ∧ (∀ sid st, sameKeySets st.live → sameKeySets ((full_disconnect sid st).live))
    ∧ (∀ sid st, sameKeySets st.live → sameKeySets ((admin_kick sid st).live))
    ∧ (∀ t st, sameKeySets st.live → sameKeySets ((admin_ban t st).live))
    ∧ (∀ sid room now st, sameKeySets st.live →
        (alookup sid st.live.sid_to_name).isSome →
        sameKeySets ((admin_move sid room now st).live)) := by
  refine ⟨?_, ?_, ?_, ?_, ?_⟩
  · intro ft fp now req d st h
    simp only [on_register]
    split
    · exact h
    · exact sameKeySets_register_live_update _ _ _ _ _ _ h
  · intro sid st h
    exact sameKeySets_full_disconnect sid st h
  · intro sid st h
    unfold admin_kick
    split
    · exact h
    · exact sameKeySets_full_disconnect _ _ (sameKeySets_leave_current_room sid st.live h)
  · intro t st h
    unfold admin_ban
    split
    · exact h
    · exact sameKeySets_foldl_fd _ _ h
  · intro sid room now st h hlive
    obtain ⟨e1, e2, e3⟩ := leave_current_room_dicts sid st.live
    have h2 : sameKeySets (leave_current_room sid st.live) :=
      sameKeySets_leave_current_room sid st.live h
    have hlive2 : (alookup sid (leave_current_room sid st.live).sid_to_name).isSome := by
      rw [e1]
      exact hlive
    simp only [admin_move]
    split
    · exact h
    · split
      · exact sameKeySets_mk_room_update sid none _ _ _ _ _ h2.1 h2.2 hlive2
      · exact sameKeySets_mk_room_update sid _ _ _ _ _ _ h2.1 h2.2 hlive2

/-- C7 amended witness: a forced disconnect of "X" from an empty live
state keeps the three dicts in step. -/
theorem c7_amended_witness :
    sameKeySets ((full_disconnect "X" ⟨sampleDB, emptyLive⟩).live) :=
  c7_amended.2.1 "X" ⟨sampleDB, emptyLive⟩ ⟨fun _ => Iff.rfl, fun _ => Iff.rfl⟩

end ChatApp

namespace ChatApp

/-- The durable store for the C1 counterexample: the only stored message
is scoped to room "A". -/
def c1DB : DB :=
  ⟨[⟨"TA", "alice", "PA", 0⟩], [⟨"1.2.3.4", 5, "roomA-secret", some "TA", some "A"⟩],
    [⟨"A", "A", "", 0⟩], []⟩

/-- C1 counterexample: a session that registers unscoped (no room) ends
with `sid_to_room = none`, every stored message has room code "A", and
yet the history it is sent contains the rendered room-"A" message — the
unscoped history is not restricted to null-room messages. -/
theorem c1_counterexample :
    alookup "S1" (on_register "TB" "PB" 10 ⟨none, none, "9.9.9.9", "S1"⟩
        ⟨some "bob", none, none, none⟩ ⟨c1DB, emptyLive⟩).1.live.sid_to_room = some none
    ∧ (∀ m ∈ c1DB.messages, m.room_code = some "A")
    ∧ (on_register "TB" "PB" 10 ⟨none, none, "9.9.9.9", "S1"⟩
        ⟨some "bob", none, none, none⟩ ⟨c1DB, emptyLive⟩).2.2
      = some [renderLine "PA" "alice" (fmtHM 5) "roomA-secret"] := by
  exact ⟨by decide, by decide, by decide⟩

/-- C1 amended: the truthy-room cases are isolated — history for a
session scoped to room `r` contains only room-`r` messages, and the
fan-out of a room-`r` chat line targets exactly the connections
subscribed to transport room `r` — but the history for an unscoped
session is drawn from the whole message table regardless of room code,
so room-scoped messages do appear in it. -/
theorem c1_amended (r : String) (hr : r ≠ "") (limit : Nat) (db : DB) (req : Req)
    (text : String) (now : Nat) (st : AppState) :
    (∀ m ∈ recent_messages limit (some r) db, m.room_code = some r)
    ∧ (∀ sid, sid ∈ (on_msg req text (some r) now st).2.2 ↔ (sid, r) ∈ st.live.sio_rooms)
    ∧ recent_messages limit none db = ((db.messages.reverse).take limit).reverse := by
  refine ⟨?_, ?_, rfl⟩
  · intro m hm
    have hscope : scope_messages (some r) db
        = db.messages.filter (fun m => m.room_code = some r) := by
      unfold scope_messages
      dsimp only
      rw [if_neg hr]
    have hm2 : m ∈ scope_messages (some r) db := by
      have hm3 := List.mem_reverse.mp hm
      have hm4 := (List.take_sublist _ _).subset hm3
      exact List.mem_reverse.mp hm4
    rw [hscope] at hm2
    simpa using (List.mem_filter.mp hm2).2
  · intro sid
    show sid ∈ (if r = "" then st.live.connected
      else (st.live.sio_rooms.filter (fun p => p.2 = r)).map Prod.fst)
      ↔ (sid, r) ∈ st.live.sio_rooms
    rw [if_neg hr]
    constructor
    · intro hin
      obtain ⟨p, hp, hfst⟩ := List.mem_map.mp hin
      have h1 := List.mem_filter.mp hp
      have hpr : p = (sid, r) := by
        obtain ⟨p1, p2⟩ := p
        have := h1.2
        simp_all
      rw [← hpr]
      exact h1.1
    · intro hin
      exact List.mem_map.mpr ⟨(sid, r), List.mem_filter.mpr ⟨hin, by simp⟩, rfl⟩

/-- C1 amended witness: in the sample state, room-"A" history is all
room-"A" and the room-"A" fan-out targets exactly the "A"-subscribers. -/
theorem c1_amended_witness :
    (∀ m ∈ recent_messages 200 (some "A") sampleDB, m.room_code = some "A")
    ∧ ("S1" ∈ (on_msg ⟨none, none, "9.9.9.9", "S2"⟩ "hi" (some "A") 7 sampleState).2.2
        ↔ ("S1", "A") ∈ sampleState.live.sio_rooms) := by
  obtain ⟨h1, h2, _⟩ := c1_amended "A" (by decide) 200 sampleDB
    ⟨none, none, "9.9.9.9", "S2"⟩ "hi" 7 sampleState
  exact ⟨h1, h2 "S1"⟩

/-- A state with no live sessions but one connected (unregistered)
socket "Z", for the C2 counterexample and witness. -/
def c2State : AppState := ⟨⟨[], [], [], []⟩, ⟨[], [], [], ["Z"], []⟩⟩

/-- C2 counterexample: posting from connection "X", which has no live
session, does not fail: the message is stored (with a null credential)
and a chat line is broadcast to the connected socket "Z" under the
fallback identity "anon"/"?". -/
theorem c2_counterexample :
    alookup "X" c2State.live.sid_to_token = none
    ∧ alookup "X" c2State.live.sid_to_name = none
    ∧ (on_msg ⟨none, none, "7.7.7.7", "X"⟩ "hi" none 0 c2State).1.db.messages
      = [⟨"7.7.7.7", 0, "hi", none, none⟩]
    ∧ (on_msg ⟨none, none, "7.7.7.7", "X"⟩ "hi" none 0 c2State).2.2 = ["Z"]
    ∧ (on_msg ⟨none, none, "7.7.7.7", "X"⟩ "hi" none 0 c2State).2.1
      = renderLine "?" "anon" (fmtHM 0) "hi" := by
  exact ⟨rfl, rfl, rfl, rfl, rfl⟩

/-- C2 amended: posting from a connectionId with no live session is a
silent store-and-broadcast under a fallback identity: the message is
appended with a null credential and the line is rendered with name
"anon" and public id "?" — no error is raised and nothing is dropped. -/
theorem c2_amended (req : Req) (text : String) (room : Option String) (now : Nat)
    (st : AppState)
    (htok : alookup req.sid st.live.sid_to_token = none)
    (hname : alookup req.sid st.live.sid_to_name = none) :
    (on_msg req text room now st).1.db.messages
      = st.db.messages ++ [⟨get_client_ip req, now, text, none, room⟩]
    ∧ (on_msg req text room now st).2.1 = renderLine "?" "anon" (fmtHM now) text := by
  constructor
  · show st.db.messages
      ++ [⟨get_client_ip req, now, text, alookup req.sid st.live.sid_to_token, room⟩] = _
    rw [htok]
  · simp only [on_msg]
    rw [htok, hname]
    rfl

/-- C2 amended witness: the concrete unregistered post from "X". -/
theorem c2_amended_witness :
    (on_msg ⟨none, none, "7.7.7.7", "X"⟩ "hey" none 3 c2State).1.db.messages
      = c2State.db.messages
        ++ [⟨get_client_ip ⟨none, none, "7.7.7.7", "X"⟩, 3, "hey", none, none⟩]
    ∧ (on_msg ⟨none, none, "7.7.7.7", "X"⟩ "hey" none 3 c2State).2.1
      = renderLine "?" "anon" (fmtHM 3) "hey" :=
  c2_amended ⟨none, none, "7.7.7.7", "X"⟩ "hey" none 3 c2State rfl rfl

/-- C8: the history renderer of src/chat_web_token.py leaks the stored
network origin: for a logged message from origin 10.0.0.1 whose sender
has no resolvable name, the rendered history line embeds the raw IP as
the nickname — while the renderer of src/app.py falls back to the
placeholder "anon" in the same situation. -/
theorem c8_origin_leak :
    CWT.ws_register_history ⟨[⟨"10.0.0.1", 0, "hi", none⟩], []⟩
      = ["[10.0.0.1] - 00:00 - hi"]
    ∧ render_history ⟨[], [], [], []⟩ [⟨"10.0.0.1", 0, "hi", none, none⟩]
      = [renderLine "?" "anon" (fmtHM 0) "hi"] := by
  exact ⟨by decide, by decide⟩

end ChatApp
